import Mathlib

/-!
Verification development for the charlotte-mvp vulnerability scanner.

The definitions below are a shallow embedding of the Python sources:
`plugins/vuln_scanner.py` (pattern catalog, per-line scanner, severity
classifier, bounded directory walker, report renderer, plugin entry point)
and `core/plugin_manager.py` (registry, aliases, dispatch).

Machine model choices:
- file contents are `String`s; lines are obtained by splitting on `'\n'`
  exactly as Python's `str.split('\n')` does;
- the regular expressions of the catalog are embedded as ASTs (`Regex`)
  mirroring the pattern strings token by token, and matched by a
  backtracking engine with a fuel parameter large enough for the matcher
  to be total on every input it is evaluated on; `re.IGNORECASE` is
  modelled by ASCII case folding of the subject line, with the pattern
  literals written in lower case;
- the file system is an inductive tree of named files and directories,
  traversed in entry order (`os.walk` top-down with the scanner's pruning
  of `dirs[:]`);
- Python exceptions are modelled with `Except`; the plugin manager's
  catch-all boundary therefore appears as a total function into `String`.
-/

namespace Charlotte

/-- Regular-expression ASTs covering exactly the constructs used by the
scanner's patterns: literal/class characters (`pred`), an optional class
character (`opt`, for `[_-]?`), concatenation, Kleene star, and negative
lookahead (`nlook`, for `(?!...)`). -/
inductive Regex where
  | eps : Regex
  | pred (p : Char → Bool) : Regex
  | opt (p : Char → Bool) : Regex
  | cat (a b : Regex) : Regex
  | star (r : Regex) : Regex
  | nlook (r : Regex) : Regex

/-- Backtracking matcher in continuation-passing style.  `matchC fuel r s k`
is true iff some prefix of `s` matches `r` and `k` accepts the rest.  The
star case only iterates after consuming at least one character, so a fuel
of `(patternSize + 1) * (length + 1)` always suffices; callers pass more. -/
def matchC (fuel : Nat) (r : Regex) (s : List Char) (k : List Char → Bool) : Bool :=
  match fuel with
  | 0 => false
  | f + 1 =>
    match r with
    | .eps => k s
    | .pred p =>
      match s with
      | [] => false
      | c :: cs => p c && k cs
    | .opt p =>
      (match s with
       | [] => false
       | c :: cs => p c && k cs) || k s
    | .cat a b => matchC f a s (fun s2 => matchC f b s2 k)
    | .star r0 =>
      k s || matchC f r0 s (fun s2 => decide (s2.length < s.length) && matchC f (.star r0) s2 k)
    | .nlook r0 => !(matchC f r0 s (fun _ => true)) && k s

/-- Search with `re.search` semantics: try a match starting at every position. -/
def searchOcc (r : Regex) : List Char → Bool
  | [] => matchC 1000 r [] (fun _ => true)
  | c :: cs => matchC (100 * (cs.length + 11)) r (c :: cs) (fun _ => true) || searchOcc r cs

/-- ASCII case folding, the fragment of `re.IGNORECASE` relevant to the
catalog's ASCII-only patterns. -/
def toLowerAscii (c : Char) : Char :=
  if 'A' ≤ c ∧ c ≤ 'Z' then Char.ofNat (c.toNat + 32) else c

/-- Case-insensitive `re.search` of a pattern against one line. -/
def reSearch (r : Regex) (line : List Char) : Bool :=
  searchOcc r (line.map toLowerAscii)

/-- Python's `\s` on ASCII. -/
def wsP (c : Char) : Bool :=
  c == ' ' || c == '\t' || c == '\n' || c == '\r' || c == '\x0b' || c == '\x0c'

/-- The `.` metacharacter: any character except newline. -/
def anyP (c : Char) : Bool := c != '\n'

/-- The class `['\"]`. -/
def quoteP (c : Char) : Bool := c == '\'' || c == '"'

/-- The class `[^;]`. -/
def notSemiP (c : Char) : Bool := c != ';'

/-- The class `[^'\"]`. -/
def notQuoteP (c : Char) : Bool := c != '\'' && c != '"'

/-- The class `[_-]`. -/
def underDashP (c : Char) : Bool := c == '_' || c == '-'

/-- A literal character (subject lines are case folded first, so literal
letters are written lower case). -/
def lit (c : Char) : Regex := .pred (fun x => x == c)

/-- Concatenation of a list of regexes. -/
def cats (l : List Regex) : Regex := l.foldr Regex.cat Regex.eps

/-- A literal string. -/
def strLit (s : String) : Regex := cats (s.data.map lit)

/-- Plus: `r+` as `r r*`. -/
def plus (r : Regex) : Regex := .cat r (.star r)

/-- Bounded repetition: `r{n,}` as `n` copies of `r` followed by `r*`. -/
def repGE : Nat → Regex → Regex
  | 0, r => .star r
  | n + 1, r => .cat r (repGE n r)

/-- Whitespace star `\s*`. -/
def wsStar : Regex := .star (.pred wsP)

/-- Wildcard star `.*`. -/
def dotStar : Regex := .star (.pred anyP)

/-- Pattern `execute\s*\(\s*['\"].*%.*['\"]\s*%`. -/
def patSqlFormat : Regex :=
  cats [strLit "execute", wsStar, lit '(', wsStar, .pred quoteP, dotStar, lit '%',
        dotStar, .pred quoteP, wsStar, lit '%']

/-- Pattern `execute\s*\(\s*.*\+.*\)`. -/
def patSqlConcat : Regex :=
  cats [strLit "execute", wsStar, lit '(', wsStar, dotStar, lit '+', dotStar, lit ')']

/-- Pattern `\.format\s*\(.*SELECT`. -/
def patFormatSelect : Regex :=
  cats [strLit ".format", wsStar, lit '(', dotStar, strLit "select"]

/-- Pattern `innerHTML\s*=\s*[^;]+(?!sanitize)`. -/
def patInnerHtml : Regex :=
  cats [strLit "innerhtml", wsStar, lit '=', wsStar, plus (.pred notSemiP),
        .nlook (strLit "sanitize")]

/-- Pattern `document\.write\s*\(`. -/
def patDocWrite : Regex :=
  cats [strLit "document.write", wsStar, lit '(']

/-- Pattern `eval\s*\(`. -/
def patEval : Regex :=
  cats [strLit "eval", wsStar, lit '(']

/-- Pattern `os\.system\s*\(.*\+`. -/
def patOsSystem : Regex :=
  cats [strLit "os.system", wsStar, lit '(', dotStar, lit '+']

/-- Pattern `subprocess\..*shell\s*=\s*True`. -/
def patSubprocess : Regex :=
  cats [strLit "subprocess.", dotStar, strLit "shell", wsStar, lit '=', wsStar, strLit "true"]

/-- Pattern `exec\s*\(.*input`. -/
def patExec : Regex :=
  cats [strLit "exec", wsStar, lit '(', dotStar, strLit "input"]

/-- Pattern `open\s*\(.*input.*\)`. -/
def patOpen : Regex :=
  cats [strLit "open", wsStar, lit '(', dotStar, strLit "input", dotStar, lit ')']

/-- Pattern `os\.path\.join\s*\(.*request\.`. -/
def patPathJoin : Regex :=
  cats [strLit "os.path.join", wsStar, lit '(', dotStar, strLit "request."]

/-- Pattern `password\s*=\s*['\"][^'\"]+['\"](?!\{)`. -/
def patPassword : Regex :=
  cats [strLit "password", wsStar, lit '=', wsStar, .pred quoteP, plus (.pred notQuoteP),
        .pred quoteP, .nlook (lit '\x7b')]

/-- Pattern `api[_-]?key\s*=\s*['\"][^'\"]+['\"](?!\{)`. -/
def patApiKey : Regex :=
  cats [strLit "api", .opt underDashP, strLit "key", wsStar, lit '=', wsStar, .pred quoteP,
        plus (.pred notQuoteP), .pred quoteP, .nlook (lit '\x7b')]

/-- Pattern `secret\s*=\s*['\"][^'\"]+['\"](?!\{)`. -/
def patSecret : Regex :=
  cats [strLit "secret", wsStar, lit '=', wsStar, .pred quoteP, plus (.pred notQuoteP),
        .pred quoteP, .nlook (lit '\x7b')]

/-- Pattern `token\s*=\s*['\"][^'\"]{20,}['\"](?!\{)`. -/
def patToken : Regex :=
  cats [strLit "token", wsStar, lit '=', wsStar, .pred quoteP, repGE 20 (.pred notQuoteP),
        .pred quoteP, .nlook (lit '\x7b')]

/-- Catalog `VULN_PATTERNS` from `plugins/vuln_scanner.py`: ordered categories, each
with its ordered list of (pattern, description) rules. -/
def VULN_PATTERNS : List (String × List (Regex × String)) :=
  [("SQL Injection",
     [(patSqlFormat, "String formatting in SQL query"),
      (patSqlConcat, "String concatenation in SQL query"),
      (patFormatSelect, "String formatting with SELECT")]),
   ("XSS",
     [(patInnerHtml, "Potential XSS via innerHTML"),
      (patDocWrite, "Unsafe document.write usage"),
      (patEval, "Dangerous eval() usage")]),
   ("Command Injection",
     [(patOsSystem, "Command injection via os.system"),
      (patSubprocess, "Shell injection risk"),
      (patExec, "Executing user input")]),
   ("Path Traversal",
     [(patOpen, "User input in file path"),
      (patPathJoin, "Request data in path")]),
   ("Hardcoded Secrets",
     [(patPassword, "Hardcoded password"),
      (patApiKey, "Hardcoded API key"),
      (patSecret, "Hardcoded secret"),
      (patToken, "Hardcoded token")])]

/-- One reported match, the dictionary built in `scan_file`. -/
structure Finding where
  file : String
  line : Nat
  type : String
  description : String
  code : String
  severity : String
deriving DecidableEq, Repr

/-- Classifier `get_severity` from `plugins/vuln_scanner.py`. -/
def get_severity (vuln_type : String) : String :=
  if vuln_type ∈ ["SQL Injection", "Command Injection", "XSS"] then "HIGH"
  else if vuln_type ∈ ["Path Traversal"] then "MEDIUM"
  else "LOW"

/-- Python's `content.split('\n')` on the character list of the content. -/
def splitOnNl : List Char → List (List Char)
  | [] => [[]]
  | c :: cs =>
    if c == '\n' then [] :: splitOnNl cs
    else
      match splitOnNl cs with
      | [] => [[c]]
      | l :: ls => (c :: l) :: ls

/-- Python's `str.strip()` restricted to ASCII whitespace. -/
def pyStrip (l : List Char) : List Char :=
  ((l.dropWhile wsP).reverse.dropWhile wsP).reverse

/-- Python's `enumerate(·, start)`. -/
def pyEnumerate {α : Type} : Nat → List α → List (Nat × α)
  | _, [] => []
  | n, a :: as => (n, a) :: pyEnumerate (n + 1) as

/-- Scanner `scan_file` from `plugins/vuln_scanner.py`, as the imperative triple
loop appending to a findings list (content is the already-read file text;
the `try/except` around reading is outside this pure core). -/
def scan_file (file_path : String) (content : String) : List Finding :=
  let lines := splitOnNl content.data
  VULN_PATTERNS.foldl (fun findings vp =>
    vp.2.foldl (fun findings pd =>
      (pyEnumerate 1 lines).foldl (fun findings nl =>
        if reSearch pd.1 nl.2 then
          findings ++ [{ file := file_path, line := nl.1, type := vp.1,
                         description := pd.2, code := ⟨pyStrip nl.2⟩,
                         severity := get_severity vp.1 }]
        else findings) findings) findings) []

/-- The hit list of one rule over the enumerated lines of a content. -/
def ruleHits (file_path : String) (lines : List (List Char)) (vt : String)
    (pd : Regex × String) : List Finding :=
  (pyEnumerate 1 lines).filterMap (fun nl =>
    if reSearch pd.1 nl.2 then
      some { file := file_path, line := nl.1, type := vt,
             description := pd.2, code := ⟨pyStrip nl.2⟩,
             severity := get_severity vt }
    else none)

/-- The §4.5 description of the line scanner, written as the nested ordered
comprehension the spec states: categories in catalog order, then rules in
declaration order, then lines in ascending 1-based order.  Compared against
`scan_file` (the embedding of the code) in the ordering claim. -/
def scan_file_ordered (file_path : String) (content : String) : List Finding :=
  let lines := splitOnNl content.data
  VULN_PATTERNS.flatMap (fun vp => vp.2.flatMap (fun pd => ruleHits file_path lines vp.1 pd))

/-- Allow-list `SCANNABLE_EXTENSIONS` from `plugins/vuln_scanner.py`. -/
def SCANNABLE_EXTENSIONS : List String :=
  [".py", ".js", ".java", ".php", ".rb", ".go",
   ".c", ".cpp", ".h", ".cs", ".ts", ".jsx", ".tsx"]

/-- The directory names pruned from `dirs[:]` in `scan_directory`. -/
def EXCLUDED_DIRS : List String :=
  ["node_modules", ".git", "__pycache__", "venv", "env", ".venv", "dist", "build", "target"]

/-- Index of the last `'.'` in a name (Python's `str.rfind('.')`, as an
`Option`). -/
def rfindDot (l : List Char) : Option Nat :=
  (pyEnumerate 0 l).foldl (fun acc nc => if nc.2 == '.' then some nc.1 else acc) none

/-- Python's `pathlib.PurePath.suffix` of a file name: `name[i:]` for `i` the last
dot position when `0 < i < len(name) - 1`, else the empty string. -/
def path_suffix (name : String) : String :=
  match rfindDot name.data with
  | none => ""
  | some i => if 0 < i ∧ i < name.data.length - 1 then ⟨name.data.drop i⟩ else ""

/-- Python's `str.lower()` restricted to ASCII. -/
def lowerStr (s : String) : String := ⟨s.data.map toLowerAscii⟩

/-- The extension check of `scan_directory`:
`file_path.suffix.lower() in SCANNABLE_EXTENSIONS`. -/
def isEligible (name : String) : Bool :=
  SCANNABLE_EXTENSIONS.contains (lowerStr (path_suffix name))

/-- A file-system tree: named files with contents, and named directories. -/
inductive Entry where
  | file (name : String) (content : String) : Entry
  | dir (name : String) (children : List Entry) : Entry
deriving Repr

/-- The plain files of a directory's entry list, in entry order (the
`filenames` component of an `os.walk` triple). -/
def filesOf (es : List Entry) : List (String × String) :=
  es.filterMap (fun e =>
    match e with
    | .file n c => some (n, c)
    | .dir _ _ => none)

mutual
/-- Traversal `os.walk(p)` top-down combined with `scan_directory`'s pruning of
`dirs[:]`: yields the `(root, filenames)` pairs in traversal order,
never descending into a directory named in `EXCLUDED_DIRS`. -/
def walkDir (p : String) (es : List Entry) : List (String × List (String × String)) :=
  (p, filesOf es) :: walkChildren p es

/-- Traversal of the subdirectories of a directory, in entry order. -/
def walkChildren (p : String) : List Entry → List (String × List (String × String))
  | [] => []
  | .file _ _ :: rest => walkChildren p rest
  | .dir n cs :: rest =>
    (if EXCLUDED_DIRS.contains n then [] else walkDir (p ++ "/" ++ n) cs)
      ++ walkChildren p rest
end

/-- The inner `for file in files` loop of `scan_directory`: breaks as soon
as `files_scanned >= max_files`, scans eligible files, counts them. -/
def scanFiles (root : String) (max_files : Nat) :
    List (String × String) → Nat → List Finding → List Finding × Nat
  | [], scanned, acc => (acc, scanned)
  | (name, content) :: rest, scanned, acc =>
    if max_files ≤ scanned then (acc, scanned)
    else if isEligible name then
      scanFiles root max_files rest (scanned + 1)
        (acc ++ scan_file (root ++ "/" ++ name) content)
    else scanFiles root max_files rest scanned acc

/-- The outer `for root, dirs, files in os.walk(path)` loop of
`scan_directory`, with its `break` once the cap is reached. -/
def scanWalk (max_files : Nat) :
    List (String × List (String × String)) → Nat → List Finding → List Finding × Nat
  | [], scanned, acc => (acc, scanned)
  | (root, files) :: rest, scanned, acc =>
    let r := scanFiles root max_files files scanned acc
    if max_files ≤ r.2 then r else scanWalk max_files rest r.2 r.1

/-- Walker `scan_directory` from `plugins/vuln_scanner.py`: returns
`(all_findings, files_scanned)`. -/
def scan_directory (p : String) (es : List Entry) (max_files : Nat) : List Finding × Nat :=
  scanWalk max_files (walkDir p es) 0 []

/-- The eligible files of one directory, in entry order, as
`(full path, content)` pairs. -/
def eligOf (root : String) (files : List (String × String)) : List (String × String) :=
  (files.filter (fun nc => isEligible nc.1)).map (fun nc => (root ++ "/" ++ nc.1, nc.2))

/-- The eligible files produced by a walk, in traversal order. -/
def eligibleFiles (w : List (String × List (String × String))) : List (String × String) :=
  w.flatMap (fun rf => eligOf rf.1 rf.2)

mutual
/-- Removal, at every depth, of directories whose name is in
`EXCLUDED_DIRS` (what `scan_directory`'s pruning is claimed to achieve). -/
def pruneEntry : Entry → Option Entry
  | .file n c => some (.file n c)
  | .dir n cs => if EXCLUDED_DIRS.contains n then none else some (.dir n (pruneForest cs))

/-- Map of `pruneEntry` over an entry list. -/
def pruneForest : List Entry → List Entry
  | [] => []
  | e :: rest =>
    match pruneEntry e with
    | none => pruneForest rest
    | some e2 => e2 :: pruneForest rest
end

/-- Separator `'=' * 70` of the report. -/
def eqLine : String := ⟨List.replicate 70 '='⟩

/-- Separator `'-' * 70` of the report. -/
def dashLine : String := ⟨List.replicate 70 '-'⟩

/-- The findings of one severity bucket, in input order (the grouping loop
of `format_results`). -/
def sevFilter (s : String) (fs : List Finding) : List Finding :=
  fs.filter (fun f => f.severity == s)

/-- One numbered finding block of the report. -/
def renderFinding (i : Nat) (f : Finding) : String :=
  "\n" ++ toString i ++ ". " ++ f.type ++ "\n" ++
  "   File: " ++ f.file ++ ":" ++ toString f.line ++ "\n" ++
  "   Issue: " ++ f.description ++ "\n" ++
  "   Code: " ++ (⟨f.code.data.take 100⟩ : String) ++ "\n"

/-- One per-severity section of the report (skipped when empty). -/
def renderSection (sev : String) (items : List Finding) : String :=
  if items.isEmpty then ""
  else
    "\n" ++ sev ++ " Severity Issues (" ++ toString items.length ++ "):  \n"
      ++ dashLine ++ "\n"
      ++ String.join ((pyEnumerate 1 items).map (fun nf => renderFinding nf.1 nf.2))

/-- Renderer `format_results` from `plugins/vuln_scanner.py`. -/
def format_results (findings : List Finding) (files_scanned : Nat) : String :=
  if findings.isEmpty then
    "\n[✓] No vulnerabilities found (" ++ toString files_scanned ++ " files scanned)\n"
  else
    let high := sevFilter "HIGH" findings
    let med := sevFilter "MEDIUM" findings
    let low := sevFilter "LOW" findings
    "\n" ++ eqLine ++ "\n" ++ "Vulnerability Scan Results\n" ++ eqLine ++ "\n"
      ++ "Files Scanned: " ++ toString files_scanned ++ "\n"
      ++ "Issues Found: " ++ toString findings.length ++ "\n"
      ++ "  • HIGH:   " ++ toString high.length ++ "\n"
      ++ "  • MEDIUM: " ++ toString med.length ++ "\n"
      ++ "  • LOW:    " ++ toString low.length ++ "\n"
      ++ eqLine ++ "\n"
      ++ renderSection "HIGH" high ++ renderSection "MEDIUM" med ++ renderSection "LOW" low
      ++ "\n" ++ eqLine ++ "\n"

/-- What `Path(scan_path).resolve()` finds on disk: nothing, a plain file
with some content, or a directory with its entries. -/
inductive PathTarget where
  | missing : PathTarget
  | file (content : String) : PathTarget
  | dir (entries : List Entry) : PathTarget

namespace VulnScanner

/-- Entry point `run_plugin` from `plugins/vuln_scanner.py`.  `scan_path` is the `path`
argument (the model identifies the resolved path with it); `target` is what
that path designates on disk. -/
def run_plugin (scan_path : String) (target : PathTarget) (max_files : Nat) : String :=
  match target with
  | .missing => "[!] Path not found: " ++ scan_path
  | .file c => format_results (scan_file scan_path c) 1
  | .dir es =>
    let r := scan_directory scan_path es max_files
    format_results r.1 r.2

end VulnScanner

/-- The surface of a loaded Python module relevant to dispatch: its optional
`run_plugin` and `run` attributes, each a function that may raise (modelled
with `Except`). -/
structure PyModule (α : Type) where
  runPluginFn : Option (α → Except String String)
  runFn : Option (α → Except String String)

namespace PluginManager

/-- Registry `PLUGIN_REGISTRY` from `core/plugin_manager.py`:
task name → (category, module name). -/
def PLUGIN_REGISTRY : List (String × String × String) :=
  [("vuln_scan", ("plugins", "vuln_scanner"))]

/-- Alias table `ALIASES` from `core/plugin_manager.py`. -/
def ALIASES : List (String × String) :=
  [("scan", "vuln_scan"), ("vulnerability_scan", "vuln_scan")]

/-- Loader `_load_plugin_module`: try `category.module_name`, fall back to
`plugins.module_name`, and wrap the final failure in the descriptive
`ModuleNotFoundError` message.  `imp` models `importlib.import_module`. -/
def _load_plugin_module {α : Type} (imp : String → Except String (PyModule α))
    (category module_name : String) : Except String (PyModule α) :=
  match imp (category ++ "." ++ module_name) with
  | .ok m => .ok m
  | .error _ =>
    match imp ("plugins." ++ module_name) with
    | .ok m => .ok m
    | .error e =>
      .error ("Plugin not found: " ++ category ++ "." ++ module_name ++ "\nError: " ++ e)

/-- Dispatcher `run_plugin` from `core/plugin_manager.py`: alias resolution, registry
lookup, load, entry-point selection, and the catch-all converting every
fault into a result string (hence the total type into `String`). -/
def run_plugin {α : Type} (imp : String → Except String (PyModule α))
    (task : String) (args : α) : String :=
  match PLUGIN_REGISTRY.lookup ((ALIASES.lookup task).getD task) with
  | none => "[!] Unknown plugin: " ++ task
  | some (category, module_name) =>
    match _load_plugin_module imp category module_name with
    | .error e => "[!] Plugin execution failed: " ++ e
    | .ok m =>
      match m.runPluginFn with
      | some f =>
        match f args with
        | .ok v => v
        | .error e => "[!] Plugin execution failed: " ++ e
      | none =>
        match m.runFn with
        | some f =>
          match f args with
          | .ok v => v
          | .error e => "[!] Plugin execution failed: " ++ e
        | none => "[!] Plugin " ++ module_name ++ " has no run() or run_plugin() function"

end PluginManager

/-! ## Helper lemmas -/

theorem foldl_append_flatMap {α β : Type} (f : α → List β) :
    ∀ (l : List α) (init : List β),
      l.foldl (fun acc x => acc ++ f x) init = init ++ l.flatMap f := by
  intro l
  induction l with
  | nil => intro init; simp
  | cons a as ih => intro init; simp [ih, List.append_assoc]

theorem foldl_if_append_filterMap {α β : Type} (cond : α → Bool) (mk : α → β) :
    ∀ (l : List α) (init : List β),
      l.foldl (fun acc x => if cond x then acc ++ [mk x] else acc) init
        = init ++ l.filterMap (fun x => if cond x then some (mk x) else none) := by
  intro l
  induction l with
  | nil => intro init; simp
  | cons a as ih =>
    intro init
    by_cases h : cond a <;> simp [h, ih, List.append_assoc]

theorem foldl_triple {A B C D : Type} (L1 : List A) (mid : A → List B) (L3 : List C)
    (cond : A → B → C → Bool) (mk : A → B → C → D) :
    L1.foldl (fun acc a =>
      (mid a).foldl (fun acc b =>
        L3.foldl (fun acc c => if cond a b c then acc ++ [mk a b c] else acc) acc) acc) []
      = L1.flatMap (fun a => (mid a).flatMap (fun b =>
          L3.filterMap (fun c => if cond a b c then some (mk a b c) else none))) := by
  have hmid : ∀ (a : A) (init : List D),
      (mid a).foldl (fun acc b =>
        L3.foldl (fun acc c => if cond a b c then acc ++ [mk a b c] else acc) acc) init
        = init ++ (mid a).flatMap (fun b =>
            L3.filterMap (fun c => if cond a b c then some (mk a b c) else none)) := by
    intro a init
    have h1 : (fun (acc : List D) (b : B) =>
        L3.foldl (fun acc c => if cond a b c then acc ++ [mk a b c] else acc) acc)
        = fun (acc : List D) (b : B) =>
            acc ++ L3.filterMap (fun c => if cond a b c then some (mk a b c) else none) := by
      funext acc b
      exact foldl_if_append_filterMap (cond a b) (mk a b) L3 acc
    rw [h1, foldl_append_flatMap]
  have h2 : (fun (acc : List D) (a : A) =>
      (mid a).foldl (fun acc b =>
        L3.foldl (fun acc c => if cond a b c then acc ++ [mk a b c] else acc) acc) acc)
      = fun (acc : List D) (a : A) =>
          acc ++ (mid a).flatMap (fun b =>
            L3.filterMap (fun c => if cond a b c then some (mk a b c) else none)) := by
    funext acc a
    exact hmid a acc
  rw [h2, foldl_append_flatMap, List.nil_append]

theorem scan_file_eq_ordered (p c : String) : scan_file p c = scan_file_ordered p c := by
  unfold scan_file scan_file_ordered ruleHits
  exact foldl_triple VULN_PATTERNS (fun vp => vp.2) (pyEnumerate 1 (splitOnNl c.data))
    (fun vp pd nl => reSearch pd.1 nl.2)
    (fun vp pd nl => ({ file := p, line := nl.1, type := vp.1, description := pd.2,
                        code := (⟨pyStrip nl.2⟩ : String),
                        severity := get_severity vp.1 } : Finding))

theorem pyEnumerate_mem {α : Type} :
    ∀ (l : List α) (k n : Nat) (a : α),
      (n, a) ∈ pyEnumerate k l → k ≤ n ∧ n < k + l.length ∧ l.get? (n - k) = some a := by
  intro l
  induction l with
  | nil => intro k n a h; cases h
  | cons x xs ih =>
    intro k n a h
    rw [pyEnumerate] at h
    rcases List.mem_cons.mp h with h1 | h2
    · obtain ⟨rfl, rfl⟩ := Prod.mk.injEq .. ▸ h1
      exact ⟨Nat.le_refl _, by simp, by simp⟩
    · obtain ⟨h3, h4, h5⟩ := ih (k + 1) n a h2
      refine ⟨Nat.le_trans (Nat.le_succ k) h3, by simp at h4 ⊢; omega, ?_⟩
      have hnk : n - k = (n - (k + 1)) + 1 := by omega
      rw [hnk]
      simpa using h5

/-! ## Claims -/

/-- C3 counterexample: the claim says the single line
`query = "SELECT * FROM t WHERE id=" + user_id` yields exactly one
HIGH-severity SQL Injection finding at line 1; on the code it yields no
finding at all (no catalog pattern matches — in particular the SQL
concatenation rule requires an `execute(` call on the line). -/
theorem sql_line_claim_false :
    ¬ ∃ fd : Finding,
        scan_file "app.py" "query = \"SELECT * FROM t WHERE id=\" + user_id" = [fd] ∧
        fd.severity = "HIGH" ∧ fd.type = "SQL Injection" ∧ fd.line = 1 := by
  intro h
  obtain ⟨fd, h1, -⟩ := h
  have h0 : scan_file "app.py" "query = \"SELECT * FROM t WHERE id=\" + user_id" = [] := by
    decide
  rw [h0] at h1
  exact List.cons_ne_nil fd [] h1.symm

/-- C3 (amended): scanning a file whose content is the single line
`query = "SELECT * FROM t WHERE id=" + user_id` yields no Finding: none of
the catalog's patterns matches that line (the SQL concatenation rule
`execute\s*\(\s*.*\+.*\)` requires an `execute(` call). -/
theorem sql_line_scan_empty :
    scan_file "app.py" "query = \"SELECT * FROM t WHERE id=\" + user_id" = [] := by
  decide

/-- C4: the severity classifier is a pure function of the category alone,
mapping SQL Injection, Command Injection and XSS to HIGH, Path Traversal to
MEDIUM, and every other category to LOW. -/
theorem get_severity_table :
    get_severity "SQL Injection" = "HIGH" ∧
    get_severity "Command Injection" = "HIGH" ∧
    get_severity "XSS" = "HIGH" ∧
    get_severity "Path Traversal" = "MEDIUM" ∧
    ∀ vt : String, vt ≠ "SQL Injection" → vt ≠ "Command Injection" → vt ≠ "XSS" →
      vt ≠ "Path Traversal" → get_severity vt = "LOW" := by
  refine ⟨rfl, rfl, rfl, rfl, ?_⟩
  intro vt h1 h2 h3 h4
  simp [get_severity, h1, h2, h3, h4]

/-- C4 witness: a category outside the two tables gets LOW. -/
theorem get_severity_table_witness : get_severity "Hardcoded Secrets" = "LOW" :=
  get_severity_table.2.2.2.2 "Hardcoded Secrets" (by decide) (by decide) (by decide) (by decide)

/-- C5: `scan_file` returns its findings ordered by catalog category
declaration order, then rule declaration order within the category, then
ascending 1-based line number within the rule, each finding carrying the
rule's category and description and the matched line's trimmed text (the
equality with the nested ordered comprehension `scan_file_ordered`); and a
single line can yield several findings across different rules with no
deduplication (the concrete two-finding line). -/
theorem scan_file_ordering :
    (∀ p c, scan_file p c = scan_file_ordered p c) ∧
    scan_file "f" "eval(os.system(\"a\" + b))" =
      [{ file := "f", line := 1, type := "XSS", description := "Dangerous eval() usage",
         code := "eval(os.system(\"a\" + b))", severity := "HIGH" },
       { file := "f", line := 1, type := "Command Injection",
         description := "Command injection via os.system",
         code := "eval(os.system(\"a\" + b))", severity := "HIGH" }] :=
  ⟨scan_file_eq_ordered, by decide⟩

/-- C7: on an existing single-file root, the scan entry point scans exactly
that file and reports a scanned-file count of 1 whatever the file's name
and content (no extension check — witnessed also on a `.md` name the
extension filter rejects); on a missing root it returns the path-not-found
message and no traversal occurs. -/
theorem run_plugin_file_and_missing :
    (∀ (p c : String) (m : Nat),
        VulnScanner.run_plugin p (.file c) m = format_results (scan_file p c) 1) ∧
    (VulnScanner.run_plugin "readme.md" (.file "document.write(x)") 0
        = format_results (scan_file "readme.md" "document.write(x)") 1 ∧
      isEligible "readme.md" = false) ∧
    (∀ (p : String) (m : Nat),
        VulnScanner.run_plugin p .missing m = "[!] Path not found: " ++ p) :=
  ⟨fun _ _ _ => rfl, ⟨rfl, by decide⟩, fun _ _ => rfl⟩

/-- C8: dispatching "scan" and dispatching "vuln_scan" with the same args
produce identical results: the alias resolves to the same canonical task,
collaborator and entry point. -/
theorem alias_scan_equiv {α : Type} (imp : String → Except String (PyModule α)) (args : α) :
    PluginManager.run_plugin imp "scan" args = PluginManager.run_plugin imp "vuln_scan" args :=
  rfl

/-- C9: for every rule of the catalog, a single-line file triggering that
rule produces exactly one Finding carrying the rule's declared category,
the severity assigned to that category, and line number 1 (one concrete
trigger line per rule, in catalog order). -/
theorem rules_trigger_single_finding :
    scan_file "f" "cursor.execute(\"%s\" % name)" =
      [{ file := "f", line := 1, type := "SQL Injection",
         description := "String formatting in SQL query",
         code := "cursor.execute(\"%s\" % name)", severity := get_severity "SQL Injection" }] ∧
    scan_file "f" "cursor.execute(\"SELECT \" + uid)" =
      [{ file := "f", line := 1, type := "SQL Injection",
         description := "String concatenation in SQL query",
         code := "cursor.execute(\"SELECT \" + uid)",
         severity := get_severity "SQL Injection" }] ∧
    scan_file "f" "q = x.format(\"SELECT * FROM t\")" =
      [{ file := "f", line := 1, type := "SQL Injection",
         description := "String formatting with SELECT",
         code := "q = x.format(\"SELECT * FROM t\")", severity := get_severity "SQL Injection" }] ∧
    scan_file "f" "el.innerHTML = data" =
      [{ file := "f", line := 1, type := "XSS", description := "Potential XSS via innerHTML",
         code := "el.innerHTML = data", severity := get_severity "XSS" }] ∧
    scan_file "f" "document.write(x)" =
      [{ file := "f", line := 1, type := "XSS", description := "Unsafe document.write usage",
         code := "document.write(x)", severity := get_severity "XSS" }] ∧
    scan_file "f" "eval(x)" =
      [{ file := "f", line := 1, type := "XSS", description := "Dangerous eval() usage",
         code := "eval(x)", severity := get_severity "XSS" }] ∧
    scan_file "f" "os.system(\"rm \" + f)" =
      [{ file := "f", line := 1, type := "Command Injection",
         description := "Command injection via os.system",
         code := "os.system(\"rm \" + f)", severity := get_severity "Command Injection" }] ∧
    scan_file "f" "subprocess.run(cmd, shell=True)" =
      [{ file := "f", line := 1, type := "Command Injection",
         description := "Shell injection risk",
         code := "subprocess.run(cmd, shell=True)",
         severity := get_severity "Command Injection" }] ∧
    scan_file "f" "exec(user_input)" =
      [{ file := "f", line := 1, type := "Command Injection",
         description := "Executing user input",
         code := "exec(user_input)", severity := get_severity "Command Injection" }] ∧
    scan_file "f" "f = open(user_input)" =
      [{ file := "f", line := 1, type := "Path Traversal",
         description := "User input in file path",
         code := "f = open(user_input)", severity := get_severity "Path Traversal" }] ∧
    scan_file "f" "p = os.path.join(base, request.args)" =
      [{ file := "f", line := 1, type := "Path Traversal",
         description := "Request data in path",
         code := "p = os.path.join(base, request.args)",
         severity := get_severity "Path Traversal" }] ∧
    scan_file "f" "password = \"hunter2\"" =
      [{ file := "f", line := 1, type := "Hardcoded Secrets",
         description := "Hardcoded password",
         code := "password = \"hunter2\"", severity := get_severity "Hardcoded Secrets" }] ∧
    scan_file "f" "api_key = \"abc123\"" =
      [{ file := "f", line := 1, type := "Hardcoded Secrets",
         description := "Hardcoded API key",
         code := "api_key = \"abc123\"", severity := get_severity "Hardcoded Secrets" }] ∧
    scan_file "f" "secret = \"s3cret\"" =
      [{ file := "f", line := 1, type := "Hardcoded Secrets",
         description := "Hardcoded secret",
         code := "secret = \"s3cret\"", severity := get_severity "Hardcoded Secrets" }] ∧
    scan_file "f" "token = \"aaaaaaaaaaaaaaaaaaaaaaaa\"" =
      [{ file := "f", line := 1, type := "Hardcoded Secrets",
         description := "Hardcoded token",
         code := "token = \"aaaaaaaaaaaaaaaaaaaaaaaa\"",
         severity := get_severity "Hardcoded Secrets" }] := by
  refine ⟨?_, ?_, ?_, ?_, ?_, ?_, ?_, ?_, ?_, ?_, ?_, ?_, ?_, ?_, ?_⟩ <;> decide

theorem scanFiles_spec (root : String) (maxF : Nat) :
    ∀ (files : List (String × String)) (scanned : Nat) (acc : List Finding),
      scanFiles root maxF files scanned acc
        = (acc ++ ((eligOf root files).take (maxF - scanned)).flatMap
              (fun fc => scan_file fc.1 fc.2),
           scanned + min (maxF - scanned) (eligOf root files).length) := by
  intro files
  induction files with
  | nil => intro scanned acc; simp [scanFiles, eligOf]
  | cons nc rest ih =>
    intro scanned acc
    obtain ⟨name, content⟩ := nc
    rw [scanFiles]
    by_cases hs : maxF ≤ scanned
    · rw [if_pos hs]
      have hd : maxF - scanned = 0 := by omega
      simp [hd]
    · rw [if_neg hs]
      have hd : maxF - scanned = (maxF - (scanned + 1)) + 1 := by omega
      by_cases he : isEligible name
      · rw [if_pos he, ih]
        have helig : eligOf root ((name, content) :: rest)
            = (root ++ "/" ++ name, content) :: eligOf root rest := by
          simp [eligOf, he]
        rw [helig, hd]
        simp only [List.take_succ_cons, List.flatMap_cons, List.length_cons, Prod.mk.injEq]
        constructor
        · simp [List.append_assoc]
        · omega
      · rw [if_neg he, ih]
        have helig : eligOf root ((name, content) :: rest) = eligOf root rest := by
          simp [eligOf, he]
        rw [helig]

theorem scanWalk_spec (maxF : Nat) :
    ∀ (w : List (String × List (String × String))) (scanned : Nat) (acc : List Finding),
      scanWalk maxF w scanned acc
        = (acc ++ ((eligibleFiles w).take (maxF - scanned)).flatMap
              (fun fc => scan_file fc.1 fc.2),
           scanned + min (maxF - scanned) (eligibleFiles w).length) := by
  intro w
  induction w with
  | nil => intro scanned acc; simp [scanWalk, eligibleFiles]
  | cons rf rest ih =>
    intro scanned acc
    obtain ⟨root, files⟩ := rf
    rw [scanWalk, scanFiles_spec]
    have heq : eligibleFiles ((root, files) :: rest)
        = eligOf root files ++ eligibleFiles rest := by
      simp [eligibleFiles]
    by_cases hbr : maxF ≤ scanned + min (maxF - scanned) (eligOf root files).length
    · rw [if_pos hbr, heq]
      have hdle : maxF - scanned ≤ (eligOf root files).length := by omega
      rw [List.take_append_eq_append_take]
      have h0 : maxF - scanned - (eligOf root files).length = 0 := by omega
      rw [h0, List.take_zero, List.append_nil, List.length_append, Prod.mk.injEq]
      exact ⟨rfl, by omega⟩
    · rw [if_neg hbr, ih]
      have hlt : (eligOf root files).length < maxF - scanned := by omega
      rw [heq, List.take_append_eq_append_take,
          List.take_of_length_le (le_of_lt hlt), List.flatMap_append,
          List.length_append, Prod.mk.injEq]
      constructor
      · rw [List.append_assoc]
        have : maxF - (scanned + min (maxF - scanned) (eligOf root files).length)
            = maxF - scanned - (eligOf root files).length := by omega
        rw [this]
      · omega

/-- C2: with `max_files = N` and more than `N` eligible files in the tree,
the directory scan scans and counts exactly `N` files — the first `N`
eligible files in traversal order (its findings are exactly those of the
first `N` eligible files) — and the returned scanned-file count is `N`;
the cap bounds the total across the whole traversal. -/
theorem scan_directory_cap (p : String) (es : List Entry) (N : Nat)
    (h : N < (eligibleFiles (walkDir p es)).length) :
    (scan_directory p es N).2 = N ∧
    (scan_directory p es N).1
      = ((eligibleFiles (walkDir p es)).take N).flatMap (fun fc => scan_file fc.1 fc.2) := by
  unfold scan_directory
  rw [scanWalk_spec]
  constructor
  · simp
    omega
  · simp

/-- C2 witness: a two-file tree scanned with cap 1. -/
theorem scan_directory_cap_witness :
    (scan_directory "." [Entry.file "a.py" "eval(x)", Entry.file "b.py" ""] 1).2 = 1 ∧
    (scan_directory "." [Entry.file "a.py" "eval(x)", Entry.file "b.py" ""] 1).1
      = ((eligibleFiles
            (walkDir "." [Entry.file "a.py" "eval(x)", Entry.file "b.py" ""])).take 1).flatMap
          (fun fc => scan_file fc.1 fc.2) :=
  scan_directory_cap "." [Entry.file "a.py" "eval(x)", Entry.file "b.py" ""] 1
    (by rw [walkDir, walkChildren, walkChildren, walkChildren]; decide)

theorem pruneForest_cons_file (n c : String) (rest : List Entry) :
    pruneForest (Entry.file n c :: rest) = Entry.file n c :: pruneForest rest := rfl

theorem pruneForest_cons_dir (n : String) (cs rest : List Entry) :
    pruneForest (Entry.dir n cs :: rest)
      = if n ∈ EXCLUDED_DIRS then pruneForest rest
        else Entry.dir n (pruneForest cs) :: pruneForest rest := by
  by_cases hn : n ∈ EXCLUDED_DIRS <;> simp [pruneForest, pruneEntry, hn]

theorem walkChildren_cons_file (p n c : String) (rest : List Entry) :
    walkChildren p (Entry.file n c :: rest) = walkChildren p rest := by
  simp [walkChildren]

theorem walkChildren_cons_dir (p n : String) (cs rest : List Entry) :
    walkChildren p (Entry.dir n cs :: rest)
      = (if n ∈ EXCLUDED_DIRS then [] else walkDir (p ++ "/" ++ n) cs)
          ++ walkChildren p rest := by
  by_cases hn : n ∈ EXCLUDED_DIRS <;> simp [walkChildren, hn]

theorem filesOf_prune : ∀ (es : List Entry), filesOf (pruneForest es) = filesOf es := by
  intro es
  induction es with
  | nil => rfl
  | cons e rest ih =>
    cases e with
    | file n c =>
      rw [pruneForest_cons_file]
      simp only [filesOf, List.filterMap_cons] at ih ⊢
      rw [ih]
    | dir n cs =>
      rw [pruneForest_cons_dir]
      by_cases hn : n ∈ EXCLUDED_DIRS
      · rw [if_pos hn]
        simp only [filesOf, List.filterMap_cons] at ih ⊢
        rw [ih]
      · rw [if_neg hn]
        simp only [filesOf, List.filterMap_cons] at ih ⊢
        rw [ih]

mutual
theorem walkDir_prune (p : String) (es : List Entry) :
    walkDir p (pruneForest es) = walkDir p es := by
  rw [walkDir, walkDir, filesOf_prune, walkChildren_prune p es]
termination_by (sizeOf es, 1)

theorem walkChildren_prune (p : String) (es : List Entry) :
    walkChildren p (pruneForest es) = walkChildren p es := by
  match es with
  | [] => rfl
  | .file n c :: rest =>
    rw [pruneForest_cons_file, walkChildren_cons_file, walkChildren_cons_file]
    exact walkChildren_prune p rest
  | .dir n cs :: rest =>
    rw [pruneForest_cons_dir]
    by_cases hn : n ∈ EXCLUDED_DIRS
    · rw [if_pos hn, walkChildren_cons_dir, if_pos hn, List.nil_append]
      exact walkChildren_prune p rest
    · rw [if_neg hn, walkChildren_cons_dir, if_neg hn, walkChildren_cons_dir, if_neg hn,
          walkDir_prune (p ++ "/" ++ n) cs, walkChildren_prune p rest]
termination_by (sizeOf es, 0)
end

/-- C6: a file anywhere beneath a directory whose base name is in the fixed
exclusion set is never scanned, at any nesting depth: the scan of any tree
equals the scan of the tree with every excluded-named subtree removed at
every depth, and an excluded subtree contributes nothing to the walk — it
is not descended into. -/
theorem excluded_dirs_never_scanned :
    (∀ (p : String) (es : List Entry) (m : Nat),
        scan_directory p es m = scan_directory p (pruneForest es) m) ∧
    (∀ (p n : String) (cs rest : List Entry), n ∈ EXCLUDED_DIRS →
        walkChildren p (Entry.dir n cs :: rest) = walkChildren p rest) := by
  constructor
  · intro p es m
    unfold scan_directory
    rw [walkDir_prune]
  · intro p n cs rest hn
    rw [walkChildren_cons_dir, if_pos hn, List.nil_append]

/-- C6 witness: a `.git` subtree (with an eligible file inside) contributes
nothing to the walk. -/
theorem excluded_dirs_never_scanned_witness :
    walkChildren "." [Entry.dir ".git" [Entry.file "x.py" "eval(x)"]] = walkChildren "." [] :=
  excluded_dirs_never_scanned.2 "." ".git" [Entry.file "x.py" "eval(x)"] [] (by decide)

/-- C1: dispatch never lets a fault escape: for every loader behaviour,
task name and args, if the alias-resolved name has no registry entry the
result is the unknown-plugin string, and in general the result is one of:
the unknown-plugin string, a failure string wrapping the fault, the
missing-entry-point string, or the value successfully returned by the
collaborator's entry point. -/
theorem dispatch_shields_faults {α : Type} (imp : String → Except String (PyModule α))
    (task : String) (args : α) :
    (PluginManager.PLUGIN_REGISTRY.lookup ((PluginManager.ALIASES.lookup task).getD task)
        = none →
      PluginManager.run_plugin imp task args = "[!] Unknown plugin: " ++ task) ∧
    (PluginManager.run_plugin imp task args = "[!] Unknown plugin: " ++ task ∨
     (∃ e, PluginManager.run_plugin imp task args = "[!] Plugin execution failed: " ++ e) ∨
     (∃ m, PluginManager.run_plugin imp task args
        = "[!] Plugin " ++ m ++ " has no run() or run_plugin() function") ∨
     (∃ (f : α → Except String String) (v : String),
        f args = Except.ok v ∧ PluginManager.run_plugin imp task args = v)) := by
  constructor
  · intro h
    unfold PluginManager.run_plugin
    simp only [h]
  · unfold PluginManager.run_plugin
    split
    · exact Or.inl rfl
    · split
      · rename_i e _
        exact Or.inr (Or.inl ⟨e, rfl⟩)
      · split
        · rename_i f _
          split
          · rename_i v hv
            exact Or.inr (Or.inr (Or.inr ⟨f, v, hv, rfl⟩))
          · rename_i e _
            exact Or.inr (Or.inl ⟨e, rfl⟩)
        · split
          · rename_i f _
            split
            · rename_i v hv
              exact Or.inr (Or.inr (Or.inr ⟨f, v, hv, rfl⟩))
            · rename_i e _
              exact Or.inr (Or.inl ⟨e, rfl⟩)
          · exact Or.inr (Or.inr (Or.inl ⟨_, rfl⟩))

/-- C1 witness: an unregistered task name with a failing loader yields the
unknown-plugin result. -/
theorem dispatch_shields_faults_witness :
    PluginManager.run_plugin
        (fun _ => (Except.error "boom" : Except String (PyModule Unit))) "does_not_exist" ()
      = "[!] Unknown plugin: does_not_exist" :=
  (dispatch_shields_faults
      (fun _ => (Except.error "boom" : Except String (PyModule Unit))) "does_not_exist" ()).1
    (by decide)

/-- C10: every finding of the line scanner is internally consistent: its
severity is the classifier applied to its category, its line number is
between 1 and the number of newline-separated lines of the content, and its
code snippet is the trimmed text of that line. -/
theorem finding_wellformed (p c : String) (fd : Finding)
    (hf : fd ∈ scan_file p c) :
    fd.severity = get_severity fd.type ∧
    1 ≤ fd.line ∧ fd.line ≤ (splitOnNl c.data).length ∧
    ∃ l, (splitOnNl c.data).get? (fd.line - 1) = some l ∧ fd.code = (⟨pyStrip l⟩ : String) := by
  rw [scan_file_eq_ordered] at hf
  simp only [scan_file_ordered] at hf
  rw [List.mem_flatMap] at hf
  obtain ⟨vp, hvp, hf⟩ := hf
  rw [List.mem_flatMap] at hf
  obtain ⟨pd, hpd, hf⟩ := hf
  simp only [ruleHits] at hf
  rw [List.mem_filterMap] at hf
  obtain ⟨nl, hnl, heq⟩ := hf
  obtain ⟨num, line⟩ := nl
  by_cases hsearch : reSearch pd.1 line
  · rw [if_pos hsearch] at heq
    injection heq with heq
    subst heq
    obtain ⟨h1, h2, h3⟩ := pyEnumerate_mem (splitOnNl c.data) 1 num line hnl
    have h4 : num ≤ (splitOnNl c.data).length := by omega
    exact ⟨rfl, h1, h4, ⟨line, h3, rfl⟩⟩
  · rw [if_neg hsearch] at heq
    exact Option.noConfusion heq

/-- A concrete finding used to witness the invariant claim. -/
def fdDemo : Finding :=
  { file := "f", line := 1, type := "XSS", description := "Dangerous eval() usage",
    code := "eval(x)", severity := "HIGH" }

/-- C10 witness: the invariant instantiated at a concrete scan. -/
theorem finding_wellformed_witness :
    fdDemo.severity = get_severity fdDemo.type ∧
    1 ≤ fdDemo.line ∧ fdDemo.line ≤ (splitOnNl ("eval(x)" : String).data).length ∧
    ∃ l, (splitOnNl ("eval(x)" : String).data).get? (fdDemo.line - 1) = some l ∧
      fdDemo.code = (⟨pyStrip l⟩ : String) :=
  finding_wellformed "f" "eval(x)" fdDemo (by decide)
end Charlotte
